import Mathlib

/-!
Verification development for the TWITCHBOT repository's event-driven
moderation/response pipeline: the gameplay critical-moment detector
(`StreamObserver`), the two generative-response decision engines
(`GenerativeAI`, ApiFreeLLM and Grok variants), and the auto-clipper
(`AutoClipper`).  Timestamps are modelled as natural numbers of
milliseconds, intensities and random draws as rationals, JS strings as
lists of characters.  JS `Date.now()` subtraction `now - before` is
modelled with truncated natural subtraction, which agrees with the JS
comparisons used by the code (a negative difference fails every
`> bound` test and passes every `< bound` test, exactly as truncation
to zero does).
-/

/-- JS `String.prototype.startsWith`: does `s` start with `pat`? -/
def strLeads : List Char → List Char → Bool
  | _, [] => true
  | [], _ :: _ => false
  | c :: s, p :: ps => c == p && strLeads s ps

/-- JS `String.prototype.includes`: does `hay` contain `needle` as a
contiguous substring? -/
def strContains : List Char → List Char → Bool
  | [], needle => needle.isEmpty
  | c :: tl, needle => strLeads (c :: tl) needle || strContains tl needle

/-- JS `String.prototype.toLowerCase` (ASCII range, which covers every
string the claims exercise). -/
def lowerStr (s : List Char) : List Char :=
  s.map Char.toLower

/-- The `push`-then-`shift` bounded-window idiom used by the source for
ring buffers: append one element, and drop the oldest when the length
exceeds `cap`. -/
def pushCap (cap : ℕ) (xs : List α) (x : α) : List α :=
  let updated := xs ++ [x]
  if cap < updated.length then updated.tail else updated

/-- Gameplay event types produced by `StreamObserver` (plus `loss`,
which only the stats counter mentions). -/
inductive EvType where
  | kill | death | win | loss | combo | rare
deriving DecidableEq

/-- `GameplayEvent`: `{type, timestamp, context, intensity}` as built by
`StreamObserver.simulateGameplayEvents`. -/
structure GEvent where
  etype : EvType
  timestamp : ℕ
  context : List Char
  intensity : ℚ
deriving DecidableEq

/-- `CriticalMoment` as built by `StreamObserver.addCriticalMoment`
(`{id, event, clipWorthy, timestamp, title}`). -/
structure CriticalMoment where
  id : ℕ
  event : GEvent
  clipWorthy : Bool
  timestamp : ℕ
  title : List Char
deriving DecidableEq

namespace StreamObserver

/-- The five per-tick random draws consumed by
`simulateGameplayEvents`: the single shared `Math.random()` stored in
`random`, plus one fresh intensity draw per event type. -/
structure TickDraws where
  random : ℚ
  rollKill : ℚ
  rollDeath : ℚ
  rollWin : ℚ
  rollCombo : ℚ
  rollRare : ℚ
deriving DecidableEq

/-- `StreamObserver.simulateGameplayEvents`: one invocation of the tick
body.  NOTE (faithful to source): all five `if (random < p)` checks
read the SAME `const random = Math.random()`; only the intensity
expressions draw fresh randomness. -/
def simulateGameplayEvents (now : ℕ) (d : TickDraws) : List GEvent :=
  (if d.random < (1 : ℚ)/10 then
    [{ etype := .kill, timestamp := now, context := "Eliminação inimigo".data,
       intensity := d.rollKill * (4/5) + 1/5 }] else []) ++
  (if d.random < (1 : ℚ)/20 then
    [{ etype := .death, timestamp := now, context := "Jogador eliminado".data,
       intensity := d.rollDeath * (3/5) + 1/10 }] else []) ++
  (if d.random < (1 : ℚ)/50 then
    [{ etype := .win, timestamp := now, context := "Vitória na partida".data,
       intensity := d.rollWin * (1/2) + 1/2 }] else []) ++
  (if d.random < (3 : ℚ)/100 then
    [{ etype := .combo, timestamp := now, context := "Combo espetacular".data,
       intensity := d.rollCombo * (7/10) + 3/10 }] else []) ++
  (if d.random < (1 : ℚ)/100 then
    [{ etype := .rare, timestamp := now, context := "Conquista rara desbloqueada".data,
       intensity := d.rollRare * (3/10) + 7/10 }] else [])

/-- Does the tick output contain an event of the given type? -/
def hasType (t : EvType) (evs : List GEvent) : Bool :=
  evs.any fun e => e.etype = t

/-- `StreamObserver.shouldCreateClip`, with `this.sensitivity` passed
explicitly (`intensityThreshold` in the source). -/
def shouldCreateClip (sensitivity : ℚ) (event : GEvent) : Bool :=
  if event.etype = .rare then true
  else if event.etype = .win ∧ (7 : ℚ)/10 < event.intensity then true
  else if event.etype = .combo ∧ sensitivity < event.intensity then true
  else if event.etype = .kill ∧ (4 : ℚ)/5 < event.intensity then true
  else false

/-- `StreamObserver.addCriticalMoment`, restricted to its effect on
`this.criticalMoments`: push, then `shift()` once the length exceeds
50. -/
def addCriticalMoment (moments : List CriticalMoment) (m : CriticalMoment) :
    List CriticalMoment :=
  let updated := moments ++ [m]
  if 50 < updated.length then updated.tail else updated

/-- `StreamObserver.getCriticalMoments`: JS `slice(-limit)` (for
`limit = 0`, JS `slice(-0)` returns the whole array). -/
def getCriticalMoments (moments : List CriticalMoment) (limit : ℕ) :
    List CriticalMoment :=
  if limit = 0 then moments else moments.drop (moments.length - limit)

/-- `StreamObserver.updateSensitivity`: clamp to [0,1]. -/
def updateSensitivity (sensitivity : ℚ) : ℚ :=
  max 0 (min 1 sensitivity)

end StreamObserver

/-!
The repository's `ia/generativeAI.js` holds two revisions of the
`GenerativeAI` class.  The second (Grok) revision is the one `index.js`
wires (`processChatMessage(channel, userstate, message)` signature); it
owns the command-prefix exclusion, the mention check, the ambient-chat
probability draw, the banned-word filter and the 20-entry chat history.
The first (ApiFreeLLM) revision owns the gameplay threshold rule
`eventIntensity >= 1 - intensity`.  Both are embedded.
-/

/-- One entry of the Grok engine's `conversationHistory`. -/
structure ChatTurn where
  username : List Char
  message : List Char
  timestamp : ℕ
deriving DecidableEq

namespace GrokAI

/-- Configuration the Grok engine reads: `config.twitch.username`,
`config.bot.prefix` (named `cmdMark` here), and
`config.filters.bannedWords`. -/
structure Config where
  botUsername : List Char
  cmdMark : List Char
  bannedWords : List (List Char)

/-- Mutable state of the Grok engine that the decision logic touches. -/
structure State where
  isActive : Bool
  intensity : ℚ
  lastResponseTime : ℕ
  responseQueue : List (GEvent × ℕ)
  recentEvents : List (GEvent × ℕ)
  conversationHistory : List ChatTurn

/-- `this.minResponseInterval` (30 seconds). -/
def minResponseInterval : ℕ := 30000

/-- Grok-variant `shouldRespond(message, userstate)`: command prefix,
then cooldown, then case-insensitive mention, then the
`Math.random() < intensity * 0.1` draw (the draw passed in as `draw`). -/
def shouldRespond (cfg : Config) (st : State) (now : ℕ)
    (message : List Char) (draw : ℚ) : Bool :=
  if strLeads message cfg.cmdMark then false
  else if now - st.lastResponseTime < minResponseInterval then false
  else if strContains (lowerStr message) (lowerStr cfg.botUsername) then true
  else draw < st.intensity * (1/10)

/-- Grok-variant `filterResponse`: banned-word rejection
(case-insensitive substring), then truncation past 500 characters. -/
def filterResponse (cfg : Config) (response : List Char) :
    Option (List Char) :=
  if cfg.bannedWords.any (fun w => strContains (lowerStr response) (lowerStr w))
  then none
  else if 500 < response.length then some (response.take 497 ++ "...".data)
  else some response

/-- Grok-variant `addToConversationHistory`: push, then `shift()` once
the length exceeds 20. -/
def addToConversationHistory (hist : List ChatTurn) (turn : ChatTurn) :
    List ChatTurn :=
  let updated := hist ++ [turn]
  if 20 < updated.length then updated.tail else updated

/-- Triggers fed to one Grok engine instance, each carrying the
`Date.now()` at which it is processed and the oracles the step consumes:
`draw` is the `Math.random()` of `shouldRespond`, `api` is the completion
provider's answer (`none` = request error / no usable text). -/
inductive Input where
  | chat (now : ℕ) (username message : List Char) (draw : ℚ)
      (api : Option (List Char))
  | gameplay (now : ℕ) (e : GEvent)
  | drain (now : ℕ) (api : Option (List Char))

/-- Timestamp of a trigger. -/
def Input.time : Input → ℕ
  | .chat now _ _ _ _ => now
  | .gameplay now _ => now
  | .drain now _ => now

/-- Kind of an outbound generated message. -/
inductive OutKind where
  | chatReply
  | gameplayComment
deriving DecidableEq

/-- One outbound generated message (`twitchClient.say`). -/
structure Out where
  time : ℕ
  kind : OutKind
  text : List Char
deriving DecidableEq

/-- One step of the Grok engine:
`processChatMessage` / `processGameplayEvent` / `processResponseQueue`.
The chat path updates `lastResponseTime` only after a successful,
filter-passing send; the gameplay-comment path (drain) neither checks
nor updates `lastResponseTime` (faithful to source). -/
def step (cfg : Config) (st : State) : Input → State × Option Out
  | .chat now username message draw api =>
    if st.isActive = false then (st, none) else
    let turn : ChatTurn := { username := username, message := message, timestamp := now }
    let st1 := { st with conversationHistory :=
      addToConversationHistory st.conversationHistory turn }
    if shouldRespond cfg st1 now message draw then
      match api with
      | none => (st1, none)
      | some response =>
        match filterResponse cfg response with
        | none => (st1, none)
        | some txt =>
          ({ st1 with lastResponseTime := now },
           some ⟨now, .chatReply, txt⟩)
    else (st1, none)
  | .gameplay now e =>
    if st.isActive = false then (st, none) else
    let st1 := { st with recentEvents := pushCap 10 st.recentEvents (e, now) }
    if (7 : ℚ)/10 < e.intensity then
      ({ st1 with responseQueue := st1.responseQueue ++ [(e, now)] }, none)
    else (st1, none)
  | .drain now api =>
    match st.responseQueue with
    | [] => (st, none)
    | (_, tq) :: rest =>
      let st1 := { st with responseQueue := rest }
      if 60000 < now - tq then (st1, none)
      else
        match api with
        | none => (st1, none)
        | some response =>
          match filterResponse cfg response with
          | none => (st1, none)
          | some txt => (st1, some ⟨now, .gameplayComment, txt⟩)

/-- Run the Grok engine over a trigger sequence, collecting outbound
messages in order. -/
def run (cfg : Config) (st : State) : List Input → State × List Out
  | [] => (st, [])
  | i :: is =>
    let p := step cfg st i
    let q := run cfg p.1 is
    (q.1, p.2.toList ++ q.2)

end GrokAI

namespace ApiFreeAI

/-- Trigger kinds the ApiFreeLLM-variant `shouldRespond` distinguishes
(`eventData.type`). -/
inductive EvKind where
  | chatMention
  | chat
  | gameplay
deriving DecidableEq

/-- `eventData` as passed to the ApiFreeLLM-variant `shouldRespond`;
`intensity` is optional because callers may omit it. -/
structure EventData where
  kind : EvKind
  intensity : Option ℚ
deriving DecidableEq

/-- State of the ApiFreeLLM engine that `shouldRespond` reads. -/
structure State where
  isActive : Bool
  intensity : ℚ
  lastResponseTime : ℕ
deriving DecidableEq

/-- JS `eventData.intensity || 0.5`: a missing intensity — and, by JS
falsiness, an intensity of exactly 0 — becomes 0.5. -/
def intensityOrDefault : Option ℚ → ℚ
  | none => 1/2
  | some v => if v = 0 then 1/2 else v

/-- ApiFreeLLM-variant `shouldRespond(eventData)`: activation, cooldown,
`chat_mention` override, then the deterministic comparison
`eventIntensity >= threshold` with `threshold = 1 - this.intensity`.
No random draw is consumed anywhere in this decision. -/
def shouldRespond (st : State) (now : ℕ) (e : EventData) : Bool :=
  if st.isActive = false then false
  else if now - st.lastResponseTime < 30000 then false
  else if e.kind = .chatMention then true
  else 1 - st.intensity ≤ intensityOrDefault e.intensity

end ApiFreeAI

namespace AutoClipper

/-- A finalized clip record as assembled by `registerClip` /
`simulateClipCreation`.  A real Twitch `POST /clips` response carries
no `url` field, so `url` is optional; `createdAt` (an ISO string in
the source) is modelled as the millisecond timestamp it encodes. -/
structure Clip where
  cid : List Char
  url : Option (List Char)
  editUrl : List Char
  title : List Char
  moment : CriticalMoment
  createdAt : ℕ
  simulated : Bool
deriving DecidableEq

/-- `clipData` as placed on `this.clipQueue` by `queueClip`. -/
structure ClipData where
  moment : CriticalMoment
  timestamp : ℕ
  title : List Char
deriving DecidableEq

/-- State of one `AutoClipper` instance.  `hasCreds` models the
presence of both `TWITCH_CLIENT_ID` and `TWITCH_ACCESS_TOKEN`. -/
structure State where
  isActive : Bool
  hasCreds : Bool
  clipQueue : List ClipData
  recentClips : List Clip
  clipCooldown : ℕ
  lastClipTime : ℕ
deriving DecidableEq

/-- The payload of a successful Twitch `POST /clips` response used by
the code: `data.data[0].id` and `data.data[0].edit_url`. -/
structure PostInfo where
  pid : List Char
  editUrl : List Char
deriving DecidableEq

/-- Outcomes of the external world during one `createClip` call:
`broadcasterId` is what `getBroadcasterId()` resolves to (`none` covers
both a failed `GET /users` lookup and an unknown channel — the source
catches those internally and returns `null`), and `postResult` is the
`POST /clips` outcome (`none` = the axios call threw). -/
structure Env where
  broadcasterId : Option (List Char)
  postResult : Option PostInfo
deriving DecidableEq

/-- What one drain/creation step did, for auditing the external
interface: whether the `GET /users` lookup ran, whether the external
`POST /clips` clip-creation call ran, and the clip record registered
(if any). -/
structure Attempt where
  lookupCalled : Bool
  providerCalled : Bool
  clip : Option Clip
deriving DecidableEq

/-- Result of one `processClipQueue` invocation. -/
inductive DrainResult where
  | empty
  | discarded (cd : ClipData)
  | attempted (a : Attempt)
deriving DecidableEq

/-- `AutoClipper.shouldCreateClip(moment)`: cooldown first, then the
`clipWorthy` flag, then the extra `intensity < 0.6` gate. -/
def shouldCreateClip (st : State) (now : ℕ) (moment : CriticalMoment) : Bool :=
  if now - st.lastClipTime < st.clipCooldown then false
  else if moment.clipWorthy = false then false
  else if moment.event.intensity < (3 : ℚ)/5 then false
  else true

/-- `AutoClipper.generateClipTitle`: `moment.title || 'Momento Épico'`
(the locale-time suffix the source appends is pure string decoration
and is left off; no claim inspects it). -/
def generateClipTitle (moment : CriticalMoment) : List Char :=
  if moment.title.isEmpty then "Momento Épico".data else moment.title

/-- `AutoClipper.queueClip`. -/
def queueClip (st : State) (now : ℕ) (moment : CriticalMoment) : State :=
  { st with clipQueue := st.clipQueue ++
      [{ moment := moment, timestamp := now, title := generateClipTitle moment }] }

/-- `AutoClipper.processCriticalMoment`. -/
def processCriticalMoment (st : State) (now : ℕ) (moment : CriticalMoment) :
    State :=
  if st.isActive = false then st
  else if shouldCreateClip st now moment then queueClip st now moment
  else st

/-- The deterministic placeholder id of a simulated clip:
`sim_${Date.now()}`. -/
def simClipId (now : ℕ) : List Char :=
  "sim_".data ++ (toString now).data

/-- The deterministic placeholder URL of a simulated clip:
`https://clips.twitch.tv/sim_${Date.now()}`. -/
def simClipUrl (now : ℕ) : List Char :=
  "https://clips.twitch.tv/sim_".data ++ (toString now).data

/-- `AutoClipper.registerClip`: push onto `recentClips`, keeping the
last 20. -/
def registerClip (st : State) (c : Clip) : State :=
  { st with recentClips := pushCap 20 st.recentClips c }

/-- `AutoClipper.simulateClipCreation`: build the deterministic local
clip record (`simulated: true`), register it, and advance
`lastClipTime`. -/
def simulateClipCreation (st : State) (now : ℕ) (cd : ClipData) :
    State × Clip :=
  let c : Clip :=
    { cid := simClipId now
      url := some (simClipUrl now)
      editUrl := simClipUrl now ++ "/edit".data
      title := cd.title
      moment := cd.moment
      createdAt := now
      simulated := true }
  ({ registerClip st c with lastClipTime := now }, c)

/-- `AutoClipper.createClip`: with no credentials, simulate; otherwise
resolve the broadcaster id (dropping the request outright when that
fails), then issue the external `POST /clips`, registering a real
(`simulated: false`) record on success and falling back to the
simulation on error.  Total — no exception escapes. -/
def createClip (st : State) (now : ℕ) (env : Env) (cd : ClipData) :
    State × Attempt :=
  if st.hasCreds = false then
    let p := simulateClipCreation st now cd
    (p.1, { lookupCalled := false, providerCalled := false, clip := some p.2 })
  else
    match env.broadcasterId with
    | none =>
      (st, { lookupCalled := true, providerCalled := false, clip := none })
    | some _ =>
      match env.postResult with
      | none =>
        let p := simulateClipCreation st now cd
        (p.1, { lookupCalled := true, providerCalled := true, clip := some p.2 })
      | some info =>
        let c : Clip :=
          { cid := info.pid
            url := none
            editUrl := info.editUrl
            title := cd.title
            moment := cd.moment
            createdAt := now
            simulated := false }
        ({ registerClip st c with lastClipTime := now },
         { lookupCalled := true, providerCalled := true, clip := some c })

/-- `AutoClipper.processClipQueue`: take one item off the FIFO queue;
silently discard it when it has aged past 120 000 ms; otherwise run
`createClip`.  No cooldown check happens here (faithful to source). -/
def processClipQueue (st : State) (now : ℕ) (env : Env) :
    State × DrainResult :=
  match st.clipQueue with
  | [] => (st, .empty)
  | cd :: rest =>
    let st1 := { st with clipQueue := rest }
    if 120000 < now - cd.timestamp then (st1, .discarded cd)
    else
      let p := createClip st1 now env cd
      (p.1, .attempted p.2)

/-- Operations driven against one `AutoClipper` instance: a
`criticalMoment` event from the observer, or one 10-second drain tick. -/
inductive Input where
  | crit (now : ℕ) (moment : CriticalMoment)
  | drain (now : ℕ) (env : Env)

/-- One step of the clipper; drains report their `DrainResult` tagged
with the drain time. -/
def step (st : State) : Input → State × Option (ℕ × DrainResult)
  | .crit now moment => (processCriticalMoment st now moment, none)
  | .drain now env =>
    let p := processClipQueue st now env
    (p.1, some (now, p.2))

/-- Run the clipper over an operation sequence, collecting drain
results in order. -/
def run (st : State) : List Input → State × List (ℕ × DrainResult)
  | [] => (st, [])
  | i :: is =>
    let p := step st i
    let q := run p.1 is
    (q.1, p.2.toList ++ q.2)

end AutoClipper

/-!
Claim-side definitions (refinement comparisons) and concrete fixtures
used by witnesses and counterexamples.
-/

/-- Modelled from the spec: claim C4's predicted gameplay rule,
"respond iff a uniform random draw clears `threshold = 1 - intensity`",
reading "clears" as the draw falling below the bound (as the
ambient-chat branch `Math.random() < chance` does). -/
def specC4DrawClearsBelow (draw intensity : ℚ) : Bool :=
  draw < 1 - intensity

/-- Modelled from the spec: the same predicted rule under the opposite
reading of "clears" — the draw reaches the threshold. -/
def specC4DrawClearsAtLeast (draw intensity : ℚ) : Bool :=
  1 - intensity ≤ draw

/-- Fixture: a Grok-engine configuration (bot name `streambot`, command
prefix `!`, empty deny-list). -/
def cfgA : GrokAI.Config :=
  { botUsername := "streambot".data, cmdMark := "!".data, bannedWords := [] }

/-- Fixture: a fresh activated Grok-engine state with intensity 0.5. -/
def stG0 : GrokAI.State :=
  { isActive := true, intensity := 1/2, lastResponseTime := 0,
    responseQueue := [], recentEvents := [], conversationHistory := [] }

/-- Fixture: a combo gameplay event of intensity 0.8. -/
def evCombo8 : GEvent :=
  { etype := .combo, timestamp := 0, context := [], intensity := 4/5 }

/-- Fixture: trigger sequence for the C2 counterexample — two
high-intensity gameplay events, each followed by a 5-second-cadence
drain whose completion call succeeds. -/
def c2CounterIns : List GrokAI.Input :=
  [ .gameplay 1000 evCombo8,
    .drain 5000 (some "boa jogada".data),
    .gameplay 6000 evCombo8,
    .drain 10000 (some "que combo".data) ]

/-- Fixture: trigger sequence for the C2 witness — two chat mentions
10 seconds apart; the second falls inside the cooldown. -/
def c2WitnessIns : List GrokAI.Input :=
  [ .chat 40000 "alice".data "oi streambot".data (9/10) (some "oi alice".data),
    .chat 50000 "bob".data "oi de novo streambot".data (9/10) (some "oi bob".data) ]

/-- Fixture: a fresh activated ApiFreeLLM-engine state with intensity
0.5. -/
def stAF0 : ApiFreeAI.State :=
  { isActive := true, intensity := 1/2, lastResponseTime := 0 }

/-- Fixture: a gameplay trigger of intensity 0.4 for the ApiFreeLLM
engine. -/
def edLow : ApiFreeAI.EventData :=
  { kind := .gameplay, intensity := some (2/5) }

/-- Fixture: the i-th critical moment of a 60-moment enqueue run. -/
def cmFix (i : ℕ) : CriticalMoment :=
  { id := i,
    event := { etype := .kill, timestamp := i, context := [], intensity := 1 },
    clipWorthy := true, timestamp := i, title := [] }

/-- Fixture: a clip-worthy critical moment (combo, intensity 0.9) at
t = 200000. -/
def mWorthy : CriticalMoment :=
  { id := 1,
    event := { etype := .combo, timestamp := 200000, context := [],
               intensity := 9/10 },
    clipWorthy := true, timestamp := 200000,
    title := "Combo Devastador!".data }

/-- Fixture: a second clip-worthy critical moment at t = 201000. -/
def mWorthy2 : CriticalMoment :=
  { id := 2,
    event := { etype := .win, timestamp := 201000, context := [],
               intensity := 9/10 },
    clipWorthy := true, timestamp := 201000,
    title := "Vitória Espetacular!".data }

/-- Fixture: a critical moment marked clip-worthy upstream whose event
intensity is 0.5 (a combo accepted with sensitivity 0.4). -/
def mCombo05 : CriticalMoment :=
  { id := 3,
    event := { etype := .combo, timestamp := 0, context := [],
               intensity := 1/2 },
    clipWorthy := true, timestamp := 0, title := [] }

/-- Fixture: an external environment where every call succeeds. -/
def envOK : AutoClipper.Env :=
  { broadcasterId := some "123".data,
    postResult := some { pid := "clip1".data,
                         editUrl := "https://clips.twitch.tv/clip1/edit".data } }

/-- Fixture: an external environment where the broadcaster-id lookup
fails (and hence no `POST /clips` outcome exists). -/
def envLookupFail : AutoClipper.Env :=
  { broadcasterId := none, postResult := none }

/-- Fixture: a fresh activated clipper with Twitch credentials. -/
def stClip0 : AutoClipper.State :=
  { isActive := true, hasCreds := true, clipQueue := [], recentClips := [],
    clipCooldown := 60000, lastClipTime := 0 }

/-- Fixture: operation sequence for the C8 counterexample — two worthy
moments enqueued 1 s apart, then two drain ticks 10 s apart with a
working external environment. -/
def c8Ins : List AutoClipper.Input :=
  [ .crit 200000 mWorthy,
    .crit 201000 mWorthy2,
    .drain 210000 envOK,
    .drain 220000 envOK ]

/-- Fixture: a queued clip request enqueued at t = 100000. -/
def cdStale : AutoClipper.ClipData :=
  { moment := mWorthy, timestamp := 100000, title := mWorthy.title }

/-- Fixture: a clipper whose queue holds exactly `cdStale`. -/
def stClipStale : AutoClipper.State :=
  { stClip0 with clipQueue := [cdStale] }

/-- Fixture: tick draws whose shared `random` is 1/25 = 0.04 — below
the death threshold 0.05 and the kill threshold 0.10 — with all
intensity rolls at 0.5. -/
def tdW : StreamObserver.TickDraws :=
  { random := 1/25, rollKill := 1/2, rollDeath := 1/2, rollWin := 1/2,
    rollCombo := 1/2, rollRare := 1/2 }

/-- Modelled from the spec: the consequence of claim C5's
"independent, mutually-non-exclusive Bernoulli trials" that the
counterexample refutes — some tick's draws make a death event fire
with no kill event on the same tick (independent trials with fire
probabilities 0.05 and 0.10 would give this probability 0.045). -/
def deathFiresWithoutKill : Prop :=
  ∃ (now : ℕ) (d : StreamObserver.TickDraws),
    StreamObserver.hasType .death
      (StreamObserver.simulateGameplayEvents now d) = true ∧
    StreamObserver.hasType .kill
      (StreamObserver.simulateGameplayEvents now d) = false

/-- Did a drain step issue the external `POST /clips` call? -/
def AutoClipper.DrainResult.providerCalled : AutoClipper.DrainResult → Bool
  | .attempted a => a.providerCalled
  | _ => false

/-- Fixture: sixty critical moments enqueued sequentially. -/
def cmList60 : List CriticalMoment :=
  (List.range 60).map cmFix

/-!
Theorems, one per claim, with witnesses and counterexamples.
-/

/-- C1: for every gameplay event and every sensitivity in [0,1],
`StreamObserver.shouldCreateClip` returns true exactly for:
rare_achievement; win with intensity > 0.7; combo with intensity >
sensitivity; kill with intensity > 0.8 — and false otherwise. -/
theorem C1_shouldCreateClip_characterization (s : ℚ) (e : GEvent)
    (hs0 : 0 ≤ s) (hs1 : s ≤ 1) (hi0 : 0 ≤ e.intensity) (hi1 : e.intensity ≤ 1) :
    StreamObserver.shouldCreateClip s e = true ↔
      (e.etype = .rare ∨
       (e.etype = .win ∧ (7 : ℚ)/10 < e.intensity) ∨
       (e.etype = .combo ∧ s < e.intensity) ∨
       (e.etype = .kill ∧ (4 : ℚ)/5 < e.intensity)) := by
  rcases e with ⟨t, ts, cx, i⟩
  cases t <;>
    simp only [StreamObserver.shouldCreateClip] <;>
    split_ifs <;> simp_all

/-- C1 witness: a combo of intensity 0.5 against sensitivity 0.4 (and
the characterization instantiated there). -/
theorem C1_witness :
    (0 ≤ (2 : ℚ)/5 ∧ (2 : ℚ)/5 ≤ 1 ∧ 0 ≤ mCombo05.event.intensity ∧
      mCombo05.event.intensity ≤ 1) ∧
    (StreamObserver.shouldCreateClip ((2 : ℚ)/5) mCombo05.event = true ↔
      (mCombo05.event.etype = .rare ∨
       (mCombo05.event.etype = .win ∧ (7 : ℚ)/10 < mCombo05.event.intensity) ∨
       (mCombo05.event.etype = .combo ∧ (2 : ℚ)/5 < mCombo05.event.intensity) ∨
       (mCombo05.event.etype = .kill ∧ (4 : ℚ)/5 < mCombo05.event.intensity))) :=
  ⟨by refine ⟨by norm_num, by norm_num, by norm_num [mCombo05], by norm_num [mCombo05]⟩,
   C1_shouldCreateClip_characterization ((2 : ℚ)/5) mCombo05.event
     (by norm_num) (by norm_num) (by norm_num [mCombo05]) (by norm_num [mCombo05])⟩

/-- C3: a chat message starting with the configured command prefix
never yields a generated response from the Grok engine — `shouldRespond`
is false and the chat step emits nothing, regardless of cooldown state,
draw, completion outcome, or whether the message also mentions the bot
name. -/
theorem C3_command_never_responds (cfg : GrokAI.Config) (st : GrokAI.State)
    (now : ℕ) (username message : List Char) (draw : ℚ)
    (api : Option (List Char))
    (h : strLeads message cfg.cmdMark = true) :
    GrokAI.shouldRespond cfg st now message draw = false ∧
    (GrokAI.step cfg st (.chat now username message draw api)).2 = none := by
  constructor
  · simp [GrokAI.shouldRespond, h]
  · simp [GrokAI.step, GrokAI.shouldRespond, h]
    split <;> simp

/-- C3 witness: the message `"!help streambot"` with prefix `"!"` —
which even contains the bot's name — yields no response. -/
theorem C3_witness :
    strLeads "!help streambot".data cfgA.cmdMark = true ∧
    GrokAI.shouldRespond cfgA stG0 100000 "!help streambot".data 0 = false ∧
    (GrokAI.step cfgA stG0
      (.chat 100000 "alice".data "!help streambot".data 0
        (some "resposta".data))).2 = none :=
  ⟨by decide,
   (C3_command_never_responds cfgA stG0 100000 "alice".data
      "!help streambot".data 0 (some "resposta".data) (by decide)).1,
   (C3_command_never_responds cfgA stG0 100000 "alice".data
      "!help streambot".data 0 (some "resposta".data) (by decide)).2⟩

/-- C10: a critical moment whose event intensity is below 0.6 is never
queued by `AutoClipper.processCriticalMoment` — the state is returned
unchanged and `AutoClipper.shouldCreateClip` is false — even when the
moment is marked clip-worthy and the cooldown has elapsed. -/
theorem C10_lowIntensity_dropped (st : AutoClipper.State) (now : ℕ)
    (m : CriticalMoment) (h : m.event.intensity < (3 : ℚ)/5) :
    AutoClipper.processCriticalMoment st now m = st ∧
    AutoClipper.shouldCreateClip st now m = false := by
  have hf : AutoClipper.shouldCreateClip st now m = false := by
    unfold AutoClipper.shouldCreateClip
    split_ifs <;> simp_all
  exact ⟨by simp [AutoClipper.processCriticalMoment, hf], hf⟩

/-- C10 witness: a combo deemed worthy upstream (clipWorthy, intensity
0.5) is silently dropped by the clipper with the cooldown elapsed. -/
theorem C10_witness :
    mCombo05.event.intensity < (3 : ℚ)/5 ∧
    (AutoClipper.processCriticalMoment stClip0 100000 mCombo05 = stClip0 ∧
     AutoClipper.shouldCreateClip stClip0 100000 mCombo05 = false) :=
  ⟨by norm_num [mCombo05],
   C10_lowIntensity_dropped stClip0 100000 mCombo05 (by norm_num [mCombo05])⟩

/-- C7: a clip request drained more than 120 000 ms after being
enqueued is discarded — the queue drops it, every other piece of state
(including `recentClips` and `lastClipTime`) is untouched, and no
external call of any kind is made (`DrainResult.discarded` carries no
`Attempt`). -/
theorem C7_stale_request_discarded (st : AutoClipper.State) (now : ℕ)
    (env : AutoClipper.Env) (cd : AutoClipper.ClipData)
    (rest : List AutoClipper.ClipData)
    (hq : st.clipQueue = cd :: rest)
    (hstale : 120000 < now - cd.timestamp) :
    AutoClipper.processClipQueue st now env =
      ({ st with clipQueue := rest }, .discarded cd) := by
  unfold AutoClipper.processClipQueue
  rw [hq]
  simp [hstale]

/-- C7 witness: a request enqueued at t₀ = 100000 and drained at
t₀ + 130000 is discarded. -/
theorem C7_witness :
    stClipStale.clipQueue = cdStale :: [] ∧
    120000 < 230000 - cdStale.timestamp ∧
    AutoClipper.processClipQueue stClipStale 230000 envOK =
      ({ stClipStale with clipQueue := [] }, .discarded cdStale) :=
  ⟨rfl, by decide,
   C7_stale_request_discarded stClipStale 230000 envOK cdStale []
     rfl (by decide)⟩

/-- C9 counterexample: credentials are present but the external
broadcaster-id lookup fails (`getBroadcasterId()` resolves to `null`,
so no `POST /clips` outcome exists — the external clip-creation attempt
does not succeed).  The drained request is simply dropped: no simulated
clip record is produced (`clip = none`), `recentClips` and
`lastClipTime` are untouched — the event IS lost, contradicting the
claim that every external failure with credentials absent-or-failing
falls back to a simulated record. -/
theorem C9_counterexample :
    stClipStale.hasCreds = true ∧
    envLookupFail.postResult = none ∧
    AutoClipper.processClipQueue stClipStale 210000 envLookupFail =
      ({ stClipStale with clipQueue := [] },
       .attempted { lookupCalled := true, providerCalled := false,
                    clip := none }) := by
  refine ⟨rfl, rfl, ?_⟩
  decide

/-- C9 amended: the fallback to a deterministic local simulated record
holds when credentials are absent, and when the `POST /clips` call
itself fails after a successful broadcaster lookup; a real `POST`
success yields a record with `simulated = false`; but a failed
broadcaster-id lookup (credentials present) drops the request with no
record.  In the two fallback cases the record carries
`simulated = true` and the placeholder URL
`https://clips.twitch.tv/sim_${now}`, and `lastClipTime` advances.
`createClip` is a total function: no exception propagates. -/
theorem C9_fallback_simulated (st : AutoClipper.State) (now : ℕ)
    (env : AutoClipper.Env) (cd : AutoClipper.ClipData) :
    (st.hasCreds = false →
      AutoClipper.createClip st now env cd =
        ((AutoClipper.simulateClipCreation st now cd).1,
         { lookupCalled := false, providerCalled := false,
           clip := some (AutoClipper.simulateClipCreation st now cd).2 }) ∧
      (AutoClipper.simulateClipCreation st now cd).2.simulated = true ∧
      (AutoClipper.simulateClipCreation st now cd).2.url =
        some (AutoClipper.simClipUrl now) ∧
      (AutoClipper.simulateClipCreation st now cd).1.lastClipTime = now) ∧
    (st.hasCreds = true → env.broadcasterId.isSome = true →
      env.postResult = none →
      AutoClipper.createClip st now env cd =
        ((AutoClipper.simulateClipCreation st now cd).1,
         { lookupCalled := true, providerCalled := true,
           clip := some (AutoClipper.simulateClipCreation st now cd).2 }) ∧
      (AutoClipper.simulateClipCreation st now cd).2.simulated = true ∧
      (AutoClipper.simulateClipCreation st now cd).2.url =
        some (AutoClipper.simClipUrl now) ∧
      (AutoClipper.simulateClipCreation st now cd).1.lastClipTime = now) ∧
    (st.hasCreds = true → env.broadcasterId.isSome = true →
      env.postResult.isSome = true →
      ((AutoClipper.createClip st now env cd).2.clip.map
        (fun c => c.simulated)) = some false ∧
      (AutoClipper.createClip st now env cd).2.providerCalled = true ∧
      (AutoClipper.createClip st now env cd).1.lastClipTime = now) := by
  refine ⟨fun hc => ?_, fun hc hb hp => ?_, fun hc hb hp => ?_⟩
  · simp [AutoClipper.createClip, hc, AutoClipper.simulateClipCreation,
      AutoClipper.simClipUrl]
  · rcases henv : env.broadcasterId with _ | bid
    · rw [henv] at hb; simp at hb
    · simp [AutoClipper.createClip, hc, henv, hp,
        AutoClipper.simulateClipCreation, AutoClipper.simClipUrl]
  · rcases henv : env.broadcasterId with _ | bid
    · rw [henv] at hb; simp at hb
    · rcases hpost : env.postResult with _ | info
      · rw [hpost] at hp; simp at hp
      · simp [AutoClipper.createClip, hc, henv, hpost]

/-- C9 witness: the three branches instantiated — no credentials, a
failing `POST /clips`, and a succeeding `POST /clips`. -/
theorem C9_witness :
    ({ stClip0 with hasCreds := false } : AutoClipper.State).hasCreds = false ∧
    stClip0.hasCreds = true ∧
    envLookupFail.broadcasterId.isSome = false ∧
    envOK.broadcasterId.isSome = true ∧
    envOK.postResult.isSome = true ∧
    (AutoClipper.createClip { stClip0 with hasCreds := false } 300000 envOK
        cdStale =
      ((AutoClipper.simulateClipCreation { stClip0 with hasCreds := false }
          300000 cdStale).1,
       { lookupCalled := false, providerCalled := false,
         clip := some (AutoClipper.simulateClipCreation
           { stClip0 with hasCreds := false } 300000 cdStale).2 }) ∧
      (AutoClipper.simulateClipCreation { stClip0 with hasCreds := false }
        300000 cdStale).2.simulated = true ∧
      (AutoClipper.simulateClipCreation { stClip0 with hasCreds := false }
        300000 cdStale).2.url = some (AutoClipper.simClipUrl 300000) ∧
      (AutoClipper.simulateClipCreation { stClip0 with hasCreds := false }
        300000 cdStale).1.lastClipTime = 300000) ∧
    (((AutoClipper.createClip stClip0 300000 envOK cdStale).2.clip.map
        (fun c => c.simulated)) = some false ∧
      (AutoClipper.createClip stClip0 300000 envOK cdStale).2.providerCalled
        = true ∧
      (AutoClipper.createClip stClip0 300000 envOK cdStale).1.lastClipTime
        = 300000) :=
  ⟨rfl, rfl, rfl, rfl, rfl,
   (C9_fallback_simulated { stClip0 with hasCreds := false } 300000 envOK
      cdStale).1 rfl,
   (C9_fallback_simulated stClip0 300000 envOK cdStale).2.2 rfl rfl rfl⟩

/-- C8 counterexample: (i) two worthy moments enqueued (at 200000 and
201000, both before any clip exists) are drained 10 s apart and BOTH
issue external `POST /clips` calls — 220000 − 210000 = 10000 ms apart,
well inside the 60000 ms cooldown window started by the first call; and
(ii) during an active cooldown a worthy moment is NOT enqueued at all —
`processCriticalMoment` returns the state unchanged — rather than
"still enqueued" as claimed.  The drain step never re-checks the
cooldown. -/
theorem C8_counterexample :
    ((AutoClipper.run stClip0 c8Ins).2.map
        (fun p => (p.1, p.2.providerCalled)) =
      [(210000, true), (220000, true)]) ∧
    220000 - 210000 < stClip0.clipCooldown ∧
    AutoClipper.processCriticalMoment
        { stClip0 with lastClipTime := 100000 } 105000 mWorthy =
      { stClip0 with lastClipTime := 100000 } := by
  refine ⟨?_, by norm_num [stClip0], ?_⟩
  · norm_num [AutoClipper.run, AutoClipper.step, c8Ins, stClip0, mWorthy,
      mWorthy2, envOK, AutoClipper.processCriticalMoment,
      AutoClipper.shouldCreateClip, AutoClipper.queueClip,
      AutoClipper.generateClipTitle, AutoClipper.processClipQueue,
      AutoClipper.createClip, AutoClipper.registerClip, pushCap,
      AutoClipper.DrainResult.providerCalled]
  · norm_num [AutoClipper.processCriticalMoment,
      AutoClipper.shouldCreateClip, stClip0]

/-- C8 amended: the cooldown is enforced only at enqueue time — while
`now - lastClipTime < clipCooldown`, `processCriticalMoment` drops new
worthy moments without enqueuing them; and the drain step performs no
cooldown re-check — any non-stale queued item (credentials present,
broadcaster resolved) issues the external call whatever `lastClipTime`
holds, so two external calls can fall within one cooldown window. -/
theorem C8_cooldown_enqueue_only (st : AutoClipper.State) (now : ℕ)
    (env : AutoClipper.Env) (m : CriticalMoment)
    (cd : AutoClipper.ClipData) (rest : List AutoClipper.ClipData) :
    (now - st.lastClipTime < st.clipCooldown →
      AutoClipper.processCriticalMoment st now m = st) ∧
    (st.clipQueue = cd :: rest → st.hasCreds = true →
      env.broadcasterId.isSome = true → now - cd.timestamp ≤ 120000 →
      (AutoClipper.processClipQueue st now env).2.providerCalled = true) := by
  constructor
  · intro hcool
    have hf : AutoClipper.shouldCreateClip st now m = false := by
      unfold AutoClipper.shouldCreateClip
      split_ifs <;> simp_all
    simp [AutoClipper.processCriticalMoment, hf]
  · intro hq hc hb hfresh
    rcases henv : env.broadcasterId with _ | bid
    · rw [henv] at hb; simp at hb
    · rcases hpost : env.postResult with _ | info <;>
      · unfold AutoClipper.processClipQueue
        rw [hq]
        simp [show ¬(120000 < now - cd.timestamp) from by omega,
          AutoClipper.createClip, hc, henv, hpost,
          AutoClipper.DrainResult.providerCalled]

/-- C8 witness: a worthy moment arriving 5 s after a clip is dropped,
and a fresh queued request drained during cooldown still calls the
provider. -/
theorem C8_witness :
    105000 - ({ stClip0 with lastClipTime := 100000 } :
        AutoClipper.State).lastClipTime <
      ({ stClip0 with lastClipTime := 100000 } :
        AutoClipper.State).clipCooldown ∧
    AutoClipper.processCriticalMoment
        { stClip0 with lastClipTime := 100000 } 105000 mWorthy =
      { stClip0 with lastClipTime := 100000 } ∧
    ({ stClipStale with lastClipTime := 205000 } :
        AutoClipper.State).clipQueue = cdStale :: [] ∧
    (AutoClipper.processClipQueue
        { stClipStale with lastClipTime := 205000 } 210000
        envOK).2.providerCalled = true :=
  ⟨by norm_num [stClip0],
   (C8_cooldown_enqueue_only { stClip0 with lastClipTime := 100000 } 105000
      envOK mWorthy cdStale []).1 (by norm_num [stClip0]),
   rfl,
   (C8_cooldown_enqueue_only { stClipStale with lastClipTime := 205000 }
      210000 envOK mWorthy cdStale []).2 rfl rfl rfl (by norm_num [cdStale])⟩

/-- Membership in a conditionally-present singleton block. -/
theorem mem_ite_nil {α : Type} (c : Prop) [Decidable c] (l : List α) (a : α) :
    (a ∈ (if c then l else [])) ↔ c ∧ a ∈ l := by
  split_ifs with h <;> simp [h]

/-- Each event type's presence in a tick's output is decided by the one
shared draw against that type's threshold. -/
theorem sim_hasType_eq (now : ℕ) (d : StreamObserver.TickDraws) :
    (StreamObserver.hasType .kill (StreamObserver.simulateGameplayEvents now d)
      = decide (d.random < (1 : ℚ)/10)) ∧
    (StreamObserver.hasType .death (StreamObserver.simulateGameplayEvents now d)
      = decide (d.random < (1 : ℚ)/20)) ∧
    (StreamObserver.hasType .win (StreamObserver.simulateGameplayEvents now d)
      = decide (d.random < (1 : ℚ)/50)) ∧
    (StreamObserver.hasType .combo (StreamObserver.simulateGameplayEvents now d)
      = decide (d.random < (3 : ℚ)/100)) ∧
    (StreamObserver.hasType .rare (StreamObserver.simulateGameplayEvents now d)
      = decide (d.random < (1 : ℚ)/100)) := by
  unfold StreamObserver.simulateGameplayEvents StreamObserver.hasType
  split_ifs with h1 h2 h3 h4 h5 <;> simp_all

/-- On no tick can a death event fire without a kill event: both
checks read the single shared `Math.random()` and 0.05 < 0.10. -/
theorem sim_death_needs_kill (now : ℕ) (d : StreamObserver.TickDraws) :
    (StreamObserver.hasType .death
        (StreamObserver.simulateGameplayEvents now d) &&
      !(StreamObserver.hasType .kill
        (StreamObserver.simulateGameplayEvents now d))) = false := by
  obtain ⟨hk, hd, -, -, -⟩ := sim_hasType_eq now d
  rw [hk, hd]
  by_cases h : d.random < (1 : ℚ)/20
  · have h10 : d.random < (1 : ℚ)/10 :=
      h.trans (show (1 : ℚ)/20 < 1/10 by norm_num)
    rw [decide_eq_true h, decide_eq_true h10]
    rfl
  · rw [decide_eq_false h]
    rfl

/-- C5 counterexample (negation of the independence claim): it is
impossible — for every sequence of per-tick draws — for a death event
to fire without a kill event also firing on the same tick, because all
five `if` checks read the single shared `Math.random()` and the fire
sets are nested (death ⇒ kill).  Independent mutually-non-exclusive
Bernoulli trials with fire probabilities 0.05 and 0.10 would make
`deathFiresWithoutKill` true. -/
theorem C5_counterexample : deathFiresWithoutKill ↔ False := by
  constructor
  · rintro ⟨now, d, hdth, hkl⟩
    have h := sim_death_needs_kill now d
    rw [hdth, hkl] at h
    exact absurd h (by simp)
  · exact False.elim

set_option maxHeartbeats 1000000 in
/-- C5 amended: each tick draws ONE shared uniform value; type T fires
iff that shared draw is below T's threshold (kill 0.10, death 0.05, win
0.02, combo 0.03, rare 0.01), so the fire sets are nested rather than
independent; each fired event's intensity comes from its own fresh draw
mapped into the claimed range (kill [0.2,1), death [0.1,0.7), win
[0.5,1), combo [0.3,1), rare [0.7,1)). -/
theorem C5_shared_draw_tick (now : ℕ) (d : StreamObserver.TickDraws)
    (hk0 : 0 ≤ d.rollKill) (hk1 : d.rollKill < 1)
    (hd0 : 0 ≤ d.rollDeath) (hd1 : d.rollDeath < 1)
    (hw0 : 0 ≤ d.rollWin) (hw1 : d.rollWin < 1)
    (hc0 : 0 ≤ d.rollCombo) (hc1 : d.rollCombo < 1)
    (hr0 : 0 ≤ d.rollRare) (hr1 : d.rollRare < 1) :
    (StreamObserver.hasType .kill (StreamObserver.simulateGameplayEvents now d)
      = decide (d.random < (1 : ℚ)/10)) ∧
    (StreamObserver.hasType .death (StreamObserver.simulateGameplayEvents now d)
      = decide (d.random < (1 : ℚ)/20)) ∧
    (StreamObserver.hasType .win (StreamObserver.simulateGameplayEvents now d)
      = decide (d.random < (1 : ℚ)/50)) ∧
    (StreamObserver.hasType .combo (StreamObserver.simulateGameplayEvents now d)
      = decide (d.random < (3 : ℚ)/100)) ∧
    (StreamObserver.hasType .rare (StreamObserver.simulateGameplayEvents now d)
      = decide (d.random < (1 : ℚ)/100)) ∧
    (∀ e ∈ StreamObserver.simulateGameplayEvents now d,
      (e.etype = .kill → (1 : ℚ)/5 ≤ e.intensity ∧ e.intensity < 1) ∧
      (e.etype = .death → (1 : ℚ)/10 ≤ e.intensity ∧ e.intensity < (7 : ℚ)/10) ∧
      (e.etype = .win → (1 : ℚ)/2 ≤ e.intensity ∧ e.intensity < 1) ∧
      (e.etype = .combo → (3 : ℚ)/10 ≤ e.intensity ∧ e.intensity < 1) ∧
      (e.etype = .rare → (7 : ℚ)/10 ≤ e.intensity ∧ e.intensity < 1)) := by
  obtain ⟨h1, h2, h3, h4, h5⟩ := sim_hasType_eq now d
  refine ⟨h1, h2, h3, h4, h5, ?_⟩
  intro e he
  simp only [StreamObserver.simulateGameplayEvents, List.mem_append,
    mem_ite_nil, List.mem_singleton, or_assoc] at he
  rcases he with ⟨-, rfl⟩ | ⟨-, rfl⟩ | ⟨-, rfl⟩ | ⟨-, rfl⟩ | ⟨-, rfl⟩ <;>
    refine ⟨?_, ?_, ?_, ?_, ?_⟩ <;> intro ht <;>
      first
        | exact EvType.noConfusion ht
        | exact ⟨by nlinarith, by nlinarith⟩

/-- C5 witness: the shared-draw characterization and intensity ranges
at the concrete draw vector `tdW` (shared draw 0.04: kill and death
both fire, the others do not). -/
theorem C5_witness :
    (0 ≤ tdW.rollKill ∧ tdW.rollKill < 1 ∧ 0 ≤ tdW.rollDeath ∧
      tdW.rollDeath < 1 ∧ 0 ≤ tdW.rollWin ∧ tdW.rollWin < 1 ∧
      0 ≤ tdW.rollCombo ∧ tdW.rollCombo < 1 ∧ 0 ≤ tdW.rollRare ∧
      tdW.rollRare < 1) ∧
    ((StreamObserver.hasType .kill (StreamObserver.simulateGameplayEvents 0 tdW)
        = decide (tdW.random < (1 : ℚ)/10)) ∧
      (StreamObserver.hasType .death
          (StreamObserver.simulateGameplayEvents 0 tdW)
        = decide (tdW.random < (1 : ℚ)/20)) ∧
      (StreamObserver.hasType .win (StreamObserver.simulateGameplayEvents 0 tdW)
        = decide (tdW.random < (1 : ℚ)/50)) ∧
      (StreamObserver.hasType .combo
          (StreamObserver.simulateGameplayEvents 0 tdW)
        = decide (tdW.random < (3 : ℚ)/100)) ∧
      (StreamObserver.hasType .rare
          (StreamObserver.simulateGameplayEvents 0 tdW)
        = decide (tdW.random < (1 : ℚ)/100)) ∧
      (∀ e ∈ StreamObserver.simulateGameplayEvents 0 tdW,
        (e.etype = .kill → (1 : ℚ)/5 ≤ e.intensity ∧ e.intensity < 1) ∧
        (e.etype = .death →
          (1 : ℚ)/10 ≤ e.intensity ∧ e.intensity < (7 : ℚ)/10) ∧
        (e.etype = .win → (1 : ℚ)/2 ≤ e.intensity ∧ e.intensity < 1) ∧
        (e.etype = .combo → (3 : ℚ)/10 ≤ e.intensity ∧ e.intensity < 1) ∧
        (e.etype = .rare → (7 : ℚ)/10 ≤ e.intensity ∧ e.intensity < 1))) :=
  ⟨by norm_num [tdW],
   C5_shared_draw_tick 0 tdW (by norm_num [tdW]) (by norm_num [tdW])
     (by norm_num [tdW]) (by norm_num [tdW]) (by norm_num [tdW])
     (by norm_num [tdW]) (by norm_num [tdW]) (by norm_num [tdW])
     (by norm_num [tdW]) (by norm_num [tdW])⟩

/-- One bounded push keeps the window within its capacity. -/
theorem pushCap_length_le {α : Type} (cap : ℕ) (xs : List α) (x : α)
    (h : xs.length ≤ cap) : (pushCap cap xs x).length ≤ cap := by
  simp only [pushCap]
  split_ifs with hc <;> simp_all <;> omega

/-- Folding the bounded push keeps exactly the trailing `cap` elements
of everything ever pushed. -/
theorem foldl_pushCap {α : Type} (cap : ℕ) :
    ∀ (xs acc : List α), acc.length ≤ cap →
      List.foldl (pushCap cap) acc xs =
        (acc ++ xs).drop ((acc ++ xs).length - cap) := by
  intro xs
  induction xs with
  | nil =>
    intro acc h
    simp [Nat.sub_eq_zero_of_le h]
  | cons x t ih =>
    intro acc h
    have hlen : (pushCap cap acc x).length ≤ cap := pushCap_length_le cap acc x h
    have step := ih (pushCap cap acc x) hlen
    rw [List.foldl_cons, step]
    by_cases hc : cap < acc.length + 1
    · have hacc : acc.length = cap := by omega
      have hp : pushCap cap acc x = (acc ++ [x]).tail := by
        simp only [pushCap]
        rw [if_pos (by simp; omega)]
      rw [hp]
      cases acc with
      | nil =>
        have hcap : cap = 0 := by simpa using hacc.symm
        subst hcap
        simp
      | cons a as =>
        have hacc2 : as.length + 1 = cap := by simpa using hacc
        have htail : ((a :: as) ++ [x]).tail = as ++ [x] := by simp
        rw [htail]
        have hL1 : ((as ++ [x]) ++ t).length - cap = t.length := by
          simp only [List.length_append, List.length_cons, List.length_nil]
          omega
        have hL2 : (((a :: as) ++ x :: t).length) - cap = t.length + 1 := by
          simp only [List.length_append, List.length_cons]
          omega
        rw [hL1, hL2]
        have hlist : (as ++ [x]) ++ t = as ++ x :: t := by simp
        rw [hlist]
        rfl
    · have hp : pushCap cap acc x = acc ++ [x] := by
        simp only [pushCap]
        rw [if_neg (by simp; omega)]
      rw [hp]
      have hlist : (acc ++ [x]) ++ t = acc ++ x :: t := by simp
      rw [hlist]

/-- C6: the critical-moment ring buffer never exceeds 50 entries, the
raw conversation-history window never exceeds 20 entries, and after
enqueuing 60 critical moments into an empty buffer exactly the most
recent 50 remain retrievable (`getCriticalMoments 50`), the oldest 10
evicted. -/
theorem C6_bounded_windows :
    (∀ (ms : List CriticalMoment) (m : CriticalMoment), ms.length ≤ 50 →
      (StreamObserver.addCriticalMoment ms m).length ≤ 50) ∧
    (∀ (hist : List ChatTurn) (turn : ChatTurn), hist.length ≤ 20 →
      (GrokAI.addToConversationHistory hist turn).length ≤ 20) ∧
    (∀ (xs : List CriticalMoment), xs.length = 60 →
      StreamObserver.getCriticalMoments
        (xs.foldl StreamObserver.addCriticalMoment []) 50 = xs.drop 10) := by
  have hcm : ∀ (ms : List CriticalMoment) (m : CriticalMoment),
      StreamObserver.addCriticalMoment ms m = pushCap 50 ms m := fun _ _ => rfl
  have hct : ∀ (hist : List ChatTurn) (turn : ChatTurn),
      GrokAI.addToConversationHistory hist turn = pushCap 20 hist turn :=
    fun _ _ => rfl
  refine ⟨?_, ?_, ?_⟩
  · intro ms m h
    rw [hcm]
    exact pushCap_length_le 50 ms m h
  · intro hist turn h
    rw [hct]
    exact pushCap_length_le 20 hist turn h
  · intro xs hx
    have hfold : xs.foldl StreamObserver.addCriticalMoment [] =
        xs.foldl (pushCap 50) [] := by
      have : StreamObserver.addCriticalMoment = pushCap 50 := by
        funext a b
        exact hcm a b
      rw [this]
    rw [hfold, foldl_pushCap 50 xs [] (by simp)]
    simp only [List.nil_append]
    rw [hx]
    have hlen : (xs.drop (60 - 50)).length = 50 := by
      rw [List.length_drop, hx]
    unfold StreamObserver.getCriticalMoments
    rw [if_neg (by omega), hlen]
    simp

/-- C6 witness: one bounded push on each window, and the 60-moment
enqueue run `cmList60` retaining exactly the trailing 50. -/
theorem C6_witness :
    ([] : List CriticalMoment).length ≤ 50 ∧
    ([] : List ChatTurn).length ≤ 20 ∧
    cmList60.length = 60 ∧
    (StreamObserver.addCriticalMoment [] (cmFix 0)).length ≤ 50 ∧
    (GrokAI.addToConversationHistory [] ⟨[], [], 0⟩).length ≤ 20 ∧
    StreamObserver.getCriticalMoments
      (cmList60.foldl StreamObserver.addCriticalMoment []) 50 =
      cmList60.drop 10 :=
  ⟨by simp, by simp, by simp [cmList60],
   C6_bounded_windows.1 [] (cmFix 0) (by simp),
   C6_bounded_windows.2.1 [] ⟨[], [], 0⟩ (by simp),
   C6_bounded_windows.2.2 cmList60 (by simp [cmList60])⟩

/-- C4 counterexample: with engine intensity 0.5 (threshold 0.5),
cooldown elapsed, and a gameplay event of intensity 0.4, the
ApiFreeLLM-variant `shouldRespond` answers false — and, having no draw
parameter at all, answers false whatever a draw would have been — yet
under either reading of the claim's "a uniform random draw clears the
threshold" there is a draw that clears it (0.1 under the below-reading,
0.9 under the at-least-reading), so the claimed biconditional
"accepted iff the draw clears" fails at those concrete points.  The
code compares the event's own intensity against the threshold; no
fresh draw is consumed. -/
theorem C4_counterexample :
    ApiFreeAI.shouldRespond stAF0 100000 edLow = false ∧
    specC4DrawClearsBelow ((1 : ℚ)/10) stAF0.intensity = true ∧
    specC4DrawClearsAtLeast ((9 : ℚ)/10) stAF0.intensity = true := by
  refine ⟨?_, ?_, ?_⟩
  · norm_num [ApiFreeAI.shouldRespond, ApiFreeAI.intensityOrDefault, stAF0,
      edLow]
    decide
  · norm_num [specC4DrawClearsBelow, stAF0]
  · norm_num [specC4DrawClearsAtLeast, stAF0]

/-- C4 amended: with the engine activated, cooldown elapsed and the
trigger neither a mention nor a command — a gameplay event is accepted
iff its OWN intensity reaches `threshold = 1 - configured intensity`
(a deterministic comparison in the ApiFreeLLM variant, no draw; a
missing or zero event intensity defaults to 0.5); an ambient chat
message is accepted iff a fresh uniform draw falls below
`intensity * 0.1` (Grok variant, bounded 0–10%%). -/
theorem C4_acceptance_rules (st : ApiFreeAI.State) (cfg : GrokAI.Config)
    (gst : GrokAI.State) (now now2 : ℕ) (e : ApiFreeAI.EventData)
    (message : List Char) (draw : ℚ) :
    (st.isActive = true → 30000 ≤ now - st.lastResponseTime →
      e.kind ≠ ApiFreeAI.EvKind.chatMention →
      (ApiFreeAI.shouldRespond st now e = true ↔
        1 - st.intensity ≤ ApiFreeAI.intensityOrDefault e.intensity)) ∧
    (strLeads message cfg.cmdMark = false →
      strContains (lowerStr message) (lowerStr cfg.botUsername) = false →
      GrokAI.minResponseInterval ≤ now2 - gst.lastResponseTime →
      (GrokAI.shouldRespond cfg gst now2 message draw = true ↔
        draw < gst.intensity * (1/10))) := by
  constructor
  · intro ha hcool hk
    unfold ApiFreeAI.shouldRespond
    rw [if_neg (by simp [ha]), if_neg (by omega), if_neg hk]
    simp
  · intro hpre hmention hcool
    unfold GrokAI.shouldRespond
    rw [if_neg (by simp [hpre]), if_neg (by omega),
      if_neg (by simp [hmention])]
    simp

/-- C4 witness: the gameplay rule at intensity 0.4 versus threshold
0.5, and the ambient-chat rule at draw 0.01 versus chance 0.05. -/
theorem C4_witness :
    (stAF0.isActive = true ∧ 30000 ≤ 100000 - stAF0.lastResponseTime ∧
      edLow.kind ≠ ApiFreeAI.EvKind.chatMention ∧
      strLeads "ola pessoal".data cfgA.cmdMark = false ∧
      strContains (lowerStr "ola pessoal".data) (lowerStr cfgA.botUsername)
        = false ∧
      GrokAI.minResponseInterval ≤ 100000 - stG0.lastResponseTime) ∧
    (ApiFreeAI.shouldRespond stAF0 100000 edLow = true ↔
      1 - stAF0.intensity ≤ ApiFreeAI.intensityOrDefault edLow.intensity) ∧
    (GrokAI.shouldRespond cfgA stG0 100000 "ola pessoal".data ((1 : ℚ)/100)
        = true ↔
      (1 : ℚ)/100 < stG0.intensity * (1/10)) :=
  ⟨⟨rfl, by norm_num [stAF0], by decide, by decide, by decide,
    by norm_num [stG0, GrokAI.minResponseInterval]⟩,
   (C4_acceptance_rules stAF0 cfgA stG0 100000 100000 edLow
      "ola pessoal".data ((1 : ℚ)/100)).1 rfl (by norm_num [stAF0])
      (by decide),
   (C4_acceptance_rules stAF0 cfgA stG0 100000 100000 edLow
      "ola pessoal".data ((1 : ℚ)/100)).2 (by decide) (by decide)
      (by norm_num [stG0, GrokAI.minResponseInterval])⟩

/-- A positive Grok `shouldRespond` verdict implies the cooldown had
elapsed at that instant. -/
theorem grok_shouldRespond_cooldown (cfg : GrokAI.Config) (st : GrokAI.State)
    (now : ℕ) (message : List Char) (draw : ℚ)
    (h : GrokAI.shouldRespond cfg st now message draw = true) :
    st.lastResponseTime + 30000 ≤ now := by
  by_cases h2 : now - st.lastResponseTime < 30000
  · have hf : GrokAI.shouldRespond cfg st now message draw = false := by
      unfold GrokAI.shouldRespond GrokAI.minResponseInterval
      split_ifs with ha hb hc <;> first | rfl | omega
    rw [hf] at h
    exact absurd h (by simp)
  · omega

/-- Shape of one Grok step: either `lastResponseTime` is untouched and
any emitted message is a gameplay comment, or a chat reply is emitted
at the trigger's time, with the cooldown having elapsed and
`lastResponseTime` advanced to that time. -/
theorem grok_step_spec (cfg : GrokAI.Config) (st : GrokAI.State)
    (i : GrokAI.Input) :
    ((GrokAI.step cfg st i).1.lastResponseTime = st.lastResponseTime ∧
      (∀ o, (GrokAI.step cfg st i).2 = some o →
        o.kind = GrokAI.OutKind.gameplayComment ∧ o.time = i.time)) ∨
    ((GrokAI.step cfg st i).1.lastResponseTime = i.time ∧
      st.lastResponseTime + 30000 ≤ i.time ∧
      (∃ o, (GrokAI.step cfg st i).2 = some o ∧
        o.kind = GrokAI.OutKind.chatReply ∧ o.time = i.time)) := by
  cases i with
  | chat now username message draw api =>
    rcases api with _ | response
    · simp only [GrokAI.step, GrokAI.Input.time]
      split_ifs with hact hsr <;>
        exact Or.inl ⟨by trivial, fun o ho => absurd ho (by simp)⟩
    · rcases hfr : GrokAI.filterResponse cfg response with _ | txt
      · simp only [GrokAI.step, GrokAI.Input.time, hfr]
        split_ifs with hact hsr <;>
          exact Or.inl ⟨by trivial, fun o ho => absurd ho (by simp)⟩
      · simp only [GrokAI.step, GrokAI.Input.time, hfr]
        split_ifs with hact hsr
        · exact Or.inl ⟨by trivial, fun o ho => absurd ho (by simp)⟩
        · refine Or.inr ⟨rfl, ?_,
            ⟨now, GrokAI.OutKind.chatReply, txt⟩, rfl, rfl, rfl⟩
          exact grok_shouldRespond_cooldown cfg _ now message draw hsr
        · exact Or.inl ⟨by trivial, fun o ho => absurd ho (by simp)⟩
  | gameplay now e =>
    simp only [GrokAI.step, GrokAI.Input.time]
    split_ifs with hact hint <;>
      exact Or.inl ⟨by trivial, fun o ho => absurd ho (by simp)⟩
  | drain now api =>
    rcases hq : st.responseQueue with _ | ⟨⟨ev, tq⟩, rest⟩
    · simp only [GrokAI.step, GrokAI.Input.time, hq]
      exact Or.inl ⟨by trivial, fun o ho => absurd ho (by simp)⟩
    · rcases api with _ | response
      · simp only [GrokAI.step, GrokAI.Input.time, hq]
        split_ifs with hstale <;>
          exact Or.inl ⟨by trivial, fun o ho => absurd ho (by simp)⟩
      · rcases hfr : GrokAI.filterResponse cfg response with _ | txt
        · simp only [GrokAI.step, GrokAI.Input.time, hq, hfr]
          split_ifs with hstale <;>
            exact Or.inl ⟨by trivial, fun o ho => absurd ho (by simp)⟩
        · simp only [GrokAI.step, GrokAI.Input.time, hq, hfr]
          split_ifs with hstale
          · exact Or.inl ⟨by trivial, fun o ho => absurd ho (by simp)⟩
          · refine Or.inl ⟨rfl, fun o ho => ?_⟩
            have ho2 : o = ⟨now, GrokAI.OutKind.gameplayComment, txt⟩ := by
              simpa using ho.symm
            subst ho2
            exact ⟨rfl, rfl⟩

/-- Chat replies in any Grok run are pairwise separated by at least
30 000 ms, and every chat reply comes at least 30 000 ms after the
initial `lastResponseTime`. -/
theorem grok_run_chat_gap (cfg : GrokAI.Config) :
    ∀ (ins : List GrokAI.Input) (st : GrokAI.State),
      ins.Pairwise (fun a b => a.time ≤ b.time) →
      (∀ i ∈ ins, st.lastResponseTime ≤ i.time) →
      ((GrokAI.run cfg st ins).2.Pairwise (fun a b =>
        a.kind = GrokAI.OutKind.chatReply → b.kind = GrokAI.OutKind.chatReply →
          a.time + 30000 ≤ b.time)) ∧
      (∀ o ∈ (GrokAI.run cfg st ins).2, o.kind = GrokAI.OutKind.chatReply →
        st.lastResponseTime + 30000 ≤ o.time) := by
  intro ins
  induction ins with
  | nil =>
    intro st hpw hlb
    constructor
    · simp [GrokAI.run]
    · intro o ho
      simp [GrokAI.run] at ho
  | cons i is ih =>
    intro st hpw hlb
    rw [List.pairwise_cons] at hpw
    obtain ⟨hile, hpw2⟩ := hpw
    have hrun : (GrokAI.run cfg st (i :: is)).2 =
        (GrokAI.step cfg st i).2.toList ++
          (GrokAI.run cfg (GrokAI.step cfg st i).1 is).2 := rfl
    rw [hrun]
    rcases grok_step_spec cfg st i with ⟨hrt, hout⟩ | ⟨hrt, hcool, o, ho, hok, htime⟩
    · have hlb2 : ∀ j ∈ is, (GrokAI.step cfg st i).1.lastResponseTime ≤ j.time := by
        intro j hj
        rw [hrt]
        exact hlb j (List.mem_cons_of_mem i hj)
      obtain ⟨ihpw, ihbd⟩ := ih (GrokAI.step cfg st i).1 hpw2 hlb2
      constructor
      · rcases hp2 : (GrokAI.step cfg st i).2 with _ | o
        · simpa [hp2] using ihpw
        · obtain ⟨hko, hto⟩ := hout o hp2
          simp only [Option.toList_some, List.singleton_append]
          rw [List.pairwise_cons]
          refine ⟨?_, ihpw⟩
          intro b hb h1 h2
          rw [hko] at h1
          exact absurd h1 (by simp)
      · intro oo hoo hk
        rcases hp2 : (GrokAI.step cfg st i).2 with _ | o
        · have hoo2 : oo ∈ (GrokAI.run cfg (GrokAI.step cfg st i).1 is).2 := by
            simpa [hp2] using hoo
          have hb := ihbd oo hoo2 hk
          rw [hrt] at hb
          exact hb
        · have hoo2 : oo = o ∨
              oo ∈ (GrokAI.run cfg (GrokAI.step cfg st i).1 is).2 := by
            simpa [hp2] using hoo
          rcases hoo2 with rfl | hoo2
          · obtain ⟨hko, -⟩ := hout oo hp2
            rw [hko] at hk
            exact absurd hk (by simp)
          · have hb := ihbd oo hoo2 hk
            rw [hrt] at hb
            exact hb
    · have hlb2 : ∀ j ∈ is, (GrokAI.step cfg st i).1.lastResponseTime ≤ j.time := by
        intro j hj
        rw [hrt]
        exact hile j hj
      obtain ⟨ihpw, ihbd⟩ := ih (GrokAI.step cfg st i).1 hpw2 hlb2
      rw [ho]
      simp only [Option.toList_some, List.singleton_append]
      constructor
      · rw [List.pairwise_cons]
        refine ⟨?_, ihpw⟩
        intro b hb h1 h2
        have hb2 := ihbd b hb h2
        rw [hrt] at hb2
        rw [htime]
        exact hb2
      · intro oo hoo hk
        rcases List.mem_cons.1 hoo with rfl | hoo2
        · rw [htime]
          exact hcool
        · have hb2 := ihbd oo hoo2 hk
          rw [hrt] at hb2
          omega

/-- C2 amended: restricted to CHAT replies, the cooldown invariant
holds for the Grok engine — over any trigger sequence with
nondecreasing timestamps (starting no earlier than the stored
`lastResponseTime`), no two chat replies are closer than
`minResponseInterval`; and a chat mention of the bot's name overrides
the probability draw but never the cooldown (`shouldRespond` is false
during cooldown even for a mention, true for a non-command mention once
the cooldown has elapsed).  Gameplay-comment sends are NOT covered: the
gameplay drain path neither checks nor updates `lastResponseTime` (see
the counterexample). -/
theorem C2_chat_cooldown_invariant :
    (∀ (cfg : GrokAI.Config) (st : GrokAI.State) (ins : List GrokAI.Input),
      ins.Pairwise (fun a b => a.time ≤ b.time) →
      (∀ i ∈ ins, st.lastResponseTime ≤ i.time) →
      (GrokAI.run cfg st ins).2.Pairwise (fun a b =>
        a.kind = GrokAI.OutKind.chatReply →
        b.kind = GrokAI.OutKind.chatReply →
          a.time + GrokAI.minResponseInterval ≤ b.time)) ∧
    (∀ (cfg : GrokAI.Config) (st : GrokAI.State) (now : ℕ)
        (message : List Char) (draw : ℚ),
      strContains (lowerStr message) (lowerStr cfg.botUsername) = true →
      now - st.lastResponseTime < GrokAI.minResponseInterval →
      GrokAI.shouldRespond cfg st now message draw = false) ∧
    (∀ (cfg : GrokAI.Config) (st : GrokAI.State) (now : ℕ)
        (message : List Char) (draw : ℚ),
      strLeads message cfg.cmdMark = false →
      strContains (lowerStr message) (lowerStr cfg.botUsername) = true →
      GrokAI.minResponseInterval ≤ now - st.lastResponseTime →
      GrokAI.shouldRespond cfg st now message draw = true) := by
  refine ⟨?_, ?_, ?_⟩
  · intro cfg st ins hpw hlb
    simpa [GrokAI.minResponseInterval] using (grok_run_chat_gap cfg ins st hpw hlb).1
  · intro cfg st now message draw hm hcool
    unfold GrokAI.shouldRespond
    split_ifs with h1 h2 h3 <;> first | rfl | omega
  · intro cfg st now message draw hpre hm hcool
    unfold GrokAI.shouldRespond
    split_ifs with h1 h2
    · exact absurd h1 (by simp [hpre])
    · omega
    · rfl

/-- C2 witness: the chat-gap invariant over two chat mentions 10 s
apart (the second is inside the cooldown), plus the two mention facts
at concrete states. -/
theorem C2_witness :
    (c2WitnessIns.Pairwise (fun a b => a.time ≤ b.time) ∧
      (∀ i ∈ c2WitnessIns, stG0.lastResponseTime ≤ i.time)) ∧
    (GrokAI.run cfgA stG0 c2WitnessIns).2.Pairwise (fun a b =>
      a.kind = GrokAI.OutKind.chatReply →
      b.kind = GrokAI.OutKind.chatReply →
        a.time + GrokAI.minResponseInterval ≤ b.time) ∧
    GrokAI.shouldRespond cfgA { stG0 with lastResponseTime := 90000 } 100000
      "oi streambot".data 1 = false ∧
    GrokAI.shouldRespond cfgA stG0 100000 "oi streambot".data 1 = true :=
  ⟨⟨by simp [c2WitnessIns, List.pairwise_cons, GrokAI.Input.time],
    by simp [c2WitnessIns, stG0, GrokAI.Input.time]⟩,
   C2_chat_cooldown_invariant.1 cfgA stG0 c2WitnessIns
     (by simp [c2WitnessIns, List.pairwise_cons, GrokAI.Input.time])
     (by simp [c2WitnessIns, stG0, GrokAI.Input.time]),
   C2_chat_cooldown_invariant.2.1 cfgA { stG0 with lastResponseTime := 90000 }
     100000 "oi streambot".data 1 (by decide)
     (by norm_num [stG0, GrokAI.minResponseInterval]),
   C2_chat_cooldown_invariant.2.2 cfgA stG0 100000 "oi streambot".data 1
     (by decide) (by decide)
     (by norm_num [stG0, GrokAI.minResponseInterval])⟩

/-- C2 counterexample: feeding the Grok engine two gameplay events of
intensity 0.8 (at 1000 and 6000) with drains at 5000 and 10000 yields
TWO outbound generated messages only 5000 ms apart — far closer than
`minResponseInterval` = 30000 ms — because the gameplay-comment path
performs no cooldown check and no `lastResponseTime` update.  The
system-wide "no two responded outcomes closer than minIntervalMs"
claim is false. -/
theorem C2_counterexample :
    ((GrokAI.run cfgA stG0 c2CounterIns).2.map
        (fun o => (o.time, o.kind)) =
      [(5000, GrokAI.OutKind.gameplayComment),
       (10000, GrokAI.OutKind.gameplayComment)]) ∧
    10000 - 5000 < GrokAI.minResponseInterval := by
  constructor
  · norm_num [GrokAI.run, GrokAI.step, c2CounterIns, evCombo8, stG0, cfgA,
      GrokAI.filterResponse, lowerStr, strContains, strLeads, pushCap,
      GrokAI.addToConversationHistory]
  · norm_num [GrokAI.minResponseInterval]
